import Mathlib

/-!
Shallow embedding of the mesh engine of `src/src/mesh.cpp` (class
`Adcirc::Geometry::Mesh` of ADCIRCModules): record types, identifier
lookup, the native-ASCII reader and writer, the link table and the
point-location query, together with theorems settling the specification
claims about them.

Modelling conventions:
* C++ `double` coordinates are modelled as `ℚ`; no settled claim depends
  on binary floating-point rounding.
* A C++ `Node*` / `Element*` into `Mesh::m_nodes` / `Mesh::m_elements`
  is modelled by the storage position (0-based index) it points to.
* `std::unordered_map<size_t, size_t>` is modelled by an association
  list with overwriting insert; `operator[]` on an absent key
  default-inserts the value 0 and yields 0, as in C++.
* `adcircmodules_throw_exception` is modelled by an error outcome;
  an unchecked vector access beyond the storage (undefined behaviour in
  C++) is modelled by a distinct `outOfStorage` outcome.
-/

namespace QADC

/-- A mesh node (`Node`): identifier plus coordinates `x`, `y` and the
elevation attribute `z` (`node.cpp` is not among the analyzed sources;
the record layout follows the spec's data model). -/
structure Node where
  id : Nat
  x : ℚ
  y : ℚ
  z : ℚ
deriving DecidableEq

/-- A default-constructed node, as produced by `std::vector<Node>::resize`. -/
def defaultNode : Node := ⟨0, 0, 0, 0⟩

/-- A mesh element (`Element`): identifier plus the storage positions of its
vertices in the owning mesh's node vector (the C++ element stores `Node*`
pointers into `Mesh::m_nodes`). -/
structure Element where
  id : Nat
  verts : List Nat
deriving DecidableEq

/-- A default-constructed element, as produced by `resize`. -/
def defaultElement : Element := ⟨0, []⟩

/-- Number of vertices of an element (`Element::n`). -/
def Element.n (e : Element) : Nat := e.verts.length

/-- A boundary (`Boundary`): type code, declared length, the two parallel
node-reference sequences and the per-node hydraulic attributes
(`boundary.cpp` is not among the analyzed sources; the attribute set
follows the spec's data model, entries absent until set). -/
structure Boundary where
  code : Int
  len : Nat
  node1 : List (Option Nat)
  node2 : List (Option Nat)
  crestElevation : List (Option ℚ)
  subcriticalWeirCoefficient : List (Option ℚ)
  supercriticalWeirCoefficient : List (Option ℚ)
  pipeHeight : List (Option ℚ)
  pipeCoefficient : List (Option ℚ)
  pipeDiameter : List (Option ℚ)
deriving DecidableEq

/-- A default-constructed boundary, as produced by `resize`. -/
def defaultBoundary : Boundary := ⟨0, 0, [], [], [], [], [], [], [], []⟩

/-- Boundary length accessor (`Boundary::length`). -/
def Boundary.length (b : Boundary) : Nat := b.len

/-- `Boundary::setBoundary(code, length)`: fixes the type code and length and
allocates the per-node storage. -/
def Boundary.setBoundary (code : Int) (len : Nat) : Boundary :=
  ⟨code, len, List.replicate len none, List.replicate len none,
   List.replicate len none, List.replicate len none, List.replicate len none,
   List.replicate len none, List.replicate len none, List.replicate len none⟩

/-- `Boundary::setNode1(j, node)`. -/
def Boundary.setNode1 (b : Boundary) (j : Nat) (p : Nat) : Boundary :=
  { b with node1 := b.node1.set j (some p) }

/-- `Boundary::setNode2(j, node)`. -/
def Boundary.setNode2 (b : Boundary) (j : Nat) (p : Nat) : Boundary :=
  { b with node2 := b.node2.set j (some p) }

/-- `Boundary::setCrestElevation(j, v)`. -/
def Boundary.setCrestElevation (b : Boundary) (j : Nat) (v : ℚ) : Boundary :=
  { b with crestElevation := b.crestElevation.set j (some v) }

/-- `Boundary::setSubcriticalWeirCoefficient(j, v)`. -/
def Boundary.setSubcriticalWeirCoefficient (b : Boundary) (j : Nat) (v : ℚ) :
    Boundary :=
  { b with subcriticalWeirCoefficient :=
      b.subcriticalWeirCoefficient.set j (some v) }

/-- `Boundary::setSupercriticalWeirCoefficient(j, v)`. -/
def Boundary.setSupercriticalWeirCoefficient (b : Boundary) (j : Nat) (v : ℚ) :
    Boundary :=
  { b with supercriticalWeirCoefficient :=
      b.supercriticalWeirCoefficient.set j (some v) }

/-- `Boundary::setPipeHeight(j, v)`. -/
def Boundary.setPipeHeight (b : Boundary) (j : Nat) (v : ℚ) : Boundary :=
  { b with pipeHeight := b.pipeHeight.set j (some v) }

/-- `Boundary::setPipeCoefficient(j, v)`. -/
def Boundary.setPipeCoefficient (b : Boundary) (j : Nat) (v : ℚ) : Boundary :=
  { b with pipeCoefficient := b.pipeCoefficient.set j (some v) }

/-- `Boundary::setPipeDiameter(j, v)`. -/
def Boundary.setPipeDiameter (b : Boundary) (j : Nat) (v : ℚ) : Boundary :=
  { b with pipeDiameter := b.pipeDiameter.set j (some v) }

/-- Association-list model of `std::unordered_map<size_t, size_t>`
(`Mesh::m_nodeLookup`, `Mesh::m_elementLookup`). -/
abbrev Lookup := List (Nat × Nat)

/-- Map insertion with overwrite (`map[k] = v`). -/
def lookupInsert (m : Lookup) (k v : Nat) : Lookup :=
  match m with
  | [] => [(k, v)]
  | (k1, v1) :: rest =>
      if k1 = k then (k, v) :: rest else (k1, v1) :: lookupInsert rest k v

/-- Map search (`map.find(k)` style). -/
def lookupFind (m : Lookup) (k : Nat) : Option Nat :=
  match m with
  | [] => none
  | (k1, v1) :: rest => if k1 = k then some v1 else lookupFind rest k

/-- Value read through `operator[]`: an absent key default-inserts a
value-initialized `size_t` (that is, 0) and yields it. -/
def lookupGet (m : Lookup) (k : Nat) : Nat := (lookupFind m k).getD 0

/-- `operator[]` as used in the readers: yields the value and the possibly
extended map (absent keys are inserted with value 0). -/
def lookupGetInsert (m : Lookup) (k : Nat) : Nat × Lookup :=
  match lookupFind m k with
  | some v => (v, m)
  | none => (0, lookupInsert m k 0)

/-- Outcome of an identifier-keyed accessor: the record, the
`adcircmodules_throw_exception` not-found path, or an unchecked vector
access beyond the storage (undefined behaviour in the C++). -/
inductive Fetched (α : Type) where
  | found (a : α)
  | notFound
  | outOfStorage
deriving DecidableEq

/-- The mesh aggregate, mirroring the member variables of
`Adcirc::Geometry::Mesh` used by the analyzed routines. -/
structure Mesh where
  m_meshHeaderString : String
  m_numNodes : Nat
  m_numElements : Nat
  m_numOpenBoundaries : Nat
  m_numLandBoundaries : Nat
  m_totalOpenBoundaryNodes : Nat
  m_totalLandBoundaryNodes : Nat
  m_nodeOrderingLogical : Bool
  m_elementOrderingLogical : Bool
  m_nodes : List Node
  m_elements : List Element
  m_openBoundaries : List Boundary
  m_landBoundaries : List Boundary
  m_nodeLookup : Lookup
  m_elementLookup : Lookup
  m_isLatLon : Bool
deriving DecidableEq

/-- `Mesh::numNodes`. -/
def Mesh.numNodes (m : Mesh) : Nat := m.m_numNodes

/-- `Mesh::numElements`. -/
def Mesh.numElements (m : Mesh) : Nat := m.m_numElements

/-- `Mesh::numOpenBoundaries`. -/
def Mesh.numOpenBoundaries (m : Mesh) : Nat := m.m_numOpenBoundaries

/-- `Mesh::numLandBoundaries`. -/
def Mesh.numLandBoundaries (m : Mesh) : Nat := m.m_numLandBoundaries

/-- `Mesh::meshHeaderString`. -/
def Mesh.meshHeaderString (m : Mesh) : String := m.m_meshHeaderString

/-- `Mesh::isLatLon`. -/
def Mesh.isLatLon (m : Mesh) : Bool := m.m_isLatLon

/-- `Mesh::_init()`: wipes counts, ordering flags and the record
collections.  Note that `_init` does not clear `m_nodeLookup`,
`m_elementLookup` or the header string (only the destructor clears the
lookups), so those fields are kept. -/
def Mesh.init (m : Mesh) : Mesh :=
  { m with
    m_numNodes := 0
    m_numElements := 0
    m_numLandBoundaries := 0
    m_numOpenBoundaries := 0
    m_totalOpenBoundaryNodes := 0
    m_totalLandBoundaryNodes := 0
    m_nodeOrderingLogical := true
    m_elementOrderingLogical := true
    m_nodes := []
    m_elements := []
    m_openBoundaries := []
    m_landBoundaries := [] }

/-- A mesh as left by the constructor: `_init` applied to a mesh with empty
collections and empty lookups (the constructor also sets the projection to
geographic EPSG 4326, hence `m_isLatLon = true`). -/
def Mesh.empty : Mesh :=
  Mesh.init ⟨"none", 0, 0, 0, 0, 0, 0, true, true, [], [], [], [], [], [], true⟩

/-- `Mesh::node(index)`: positional node accessor; indices at or beyond
`numNodes` raise an out-of-bounds error (`none`).  An index below the count
but beyond the actual storage would be undefined behaviour in C++ and is
modelled by the default node. -/
def Mesh.node (m : Mesh) (index : Nat) : Option Node :=
  if index < m.numNodes then some (m.m_nodes.getD index defaultNode) else none

/-- `Mesh::element(index)`: positional element accessor, analogous to
`Mesh::node`. -/
def Mesh.element (m : Mesh) (index : Nat) : Option Element :=
  if index < m.numElements then some (m.m_elements.getD index defaultElement)
  else none

/-- `Mesh::nodeById(id)`: in the sequential-ordering case an explicit range
check guards `m_nodes[id - 1]`; in the lookup-table case the position is
read through `m_nodeLookup[id]` (`operator[]`, no presence check). -/
def Mesh.nodeById (m : Mesh) (id : Nat) : Fetched Node :=
  if m.m_nodeOrderingLogical then
    if 0 < id ∧ id ≤ m.numNodes then
      match m.m_nodes.get? (id - 1) with
      | some n => .found n
      | none => .outOfStorage
    else .notFound
  else
    match m.m_nodes.get? (lookupGet m.m_nodeLookup id) with
    | some n => .found n
    | none => .outOfStorage

/-- `Mesh::elementById(id)`, analogous to `Mesh::nodeById`. -/
def Mesh.elementById (m : Mesh) (id : Nat) : Fetched Element :=
  if m.m_elementOrderingLogical then
    if 0 < id ∧ id ≤ m.numElements then
      match m.m_elements.get? (id - 1) with
      | some e => .found e
      | none => .outOfStorage
    else .notFound
  else
    match m.m_elements.get? (lookupGet m.m_elementLookup id) with
    | some e => .found e
    | none => .outOfStorage

/-- `Mesh::nodeIndexById(id)`: `id - 1` in the sequential case, else the
lookup-table read.  (In C++ the subtraction is on `size_t`; claims about it
are stated for `1 ≤ id`, where `Nat` subtraction agrees.) -/
def Mesh.nodeIndexById (m : Mesh) (id : Nat) : Nat :=
  if m.m_nodeOrderingLogical then id - 1 else lookupGet m.m_nodeLookup id

/-- `Mesh::elementIndexById(id)`: the sequential branch returns `id`
itself (this is what the source does, unlike `nodeIndexById`). -/
def Mesh.elementIndexById (m : Mesh) (id : Nat) : Nat :=
  if m.m_elementOrderingLogical then id else lookupGet m.m_elementLookup id

/-- `Mesh::totalOpenBoundaryNodes()`: recomputes the aggregate count by
summing the open-boundary lengths on every call (the write into the cached
member only mirrors the returned value and is dropped here). -/
def Mesh.totalOpenBoundaryNodes (m : Mesh) : Nat :=
  m.m_openBoundaries.foldl (fun acc b => acc + b.length) 0

/-- `Mesh::totalLandBoundaryNodes()`: recomputes the aggregate count by
summing the land-boundary lengths on every call. -/
def Mesh.totalLandBoundaryNodes (m : Mesh) : Nat :=
  m.m_landBoundaries.foldl (fun acc b => acc + b.length) 0

/-! ### The native-ASCII reader

`io.cpp` (the `IO::splitString...` line tokenizers) is not among the
analyzed sources, so a line of the input file is modelled by its parse
outcome under the grammar the reader applies to it: each `IO::split...`
call either fails (`none`) or yields the parsed fields.  This is faithful
for any given run, since each line is consumed by exactly one tokenizer.
`std::getline` past the end of the stream produces a line that fails every
grammar (modelled by an exhausted stream). -/

/-- One line of a native-ASCII mesh file, represented by its parse
outcome: `text` for the free-form header, `size` for the two header count
tokens, `node`/`elem` for node and element records, `count` for a leading
`size_t` count token, `lcount` for a land-boundary `length code` pair, and
`bnd...` for the per-node boundary records of each type-code family. -/
inductive Line where
  | text (s : String)
  | size (r : Option Nat × Option Nat)
  | node (r : Option (Nat × ℚ × ℚ × ℚ))
  | elem (r : Option (Nat × List Nat))
  | count (r : Option Nat)
  | lcount (r : Option Nat × Option Int)
  | bnd0 (r : Option Nat)
  | bnd23 (r : Option (Nat × ℚ × ℚ))
  | bnd24 (r : Option (Nat × Nat × ℚ × ℚ × ℚ))
  | bnd25 (r : Option ((Nat × Nat) × (ℚ × ℚ × ℚ) × (ℚ × ℚ × ℚ)))
deriving DecidableEq

/-- `std::getline`: the next line (if any) and the rest of the stream. -/
def getline (s : List Line) : Option Line × List Line := (s.head?, s.tail)

/-- The header line as a string (any non-text line would supply its raw
text in C++; the claims only involve text headers). -/
def headerOf : Option Line → String
  | some (.text s) => s
  | _ => ""

/-- Outcome of the two `StringConversion::stringToSizet` calls on the
tokens of the size line. -/
def parseSize : Option Line → Option Nat × Option Nat
  | some (.size r) => r
  | _ => (none, none)

/-- Outcome of `IO::splitStringNodeFormat`. -/
def parseNode : Option Line → Option (Nat × ℚ × ℚ × ℚ)
  | some (.node r) => r
  | _ => none

/-- Outcome of `IO::splitStringElemFormat`. -/
def parseElem : Option Line → Option (Nat × List Nat)
  | some (.elem r) => r
  | _ => none

/-- Outcome of `StringConversion::stringToSizet` on the first token of a
count line. -/
def parseCount : Option Line → Option Nat
  | some (.count r) => r
  | _ => none

/-- Outcomes of the `stringToSizet` / `stringToInt` calls on the two
tokens of a land-boundary header line. -/
def parseLandCount : Option Line → Option Nat × Option Int
  | some (.lcount r) => r
  | _ => (none, none)

/-- Outcome of `IO::splitStringBoundary0Format`. -/
def parseBnd0 : Option Line → Option Nat
  | some (.bnd0 r) => r
  | _ => none

/-- Outcome of `IO::splitStringBoundary23Format`. -/
def parseBnd23 : Option Line → Option (Nat × ℚ × ℚ)
  | some (.bnd23 r) => r
  | _ => none

/-- Outcome of `IO::splitStringBoundary24Format`. -/
def parseBnd24 : Option Line → Option (Nat × Nat × ℚ × ℚ × ℚ)
  | some (.bnd24 r) => r
  | _ => none

/-- Outcome of `IO::splitStringBoundary25Format`: the fields grouped as
node pair, weir coefficients (crest, subcritical, supercritical) and pipe
attributes (height, coefficient, diameter). -/
def parseBnd25 : Option Line → Option ((Nat × Nat) × (ℚ × ℚ × ℚ) × (ℚ × ℚ × ℚ))
  | some (.bnd25 r) => r
  | _ => none

/-- `std::vector::resize(n)`: keeps the first `n` entries and
default-fills any new tail. -/
def listResize (l : List α) (n : Nat) (dflt : α) : List α :=
  l.take n ++ List.replicate (n - l.length) dflt

/-- Builds an identifier-to-position map: for each position `i` (counting
from `start`) the loop body `lookup[ids[i]] = i` runs, on top of whatever
the map already contained. -/
def buildLookup (base : Lookup) : List Nat → Nat → Lookup
  | [], _ => base
  | id :: rest, start => buildLookup (lookupInsert base id start) rest (start + 1)

/-- A reader result: `ok` carries the updated mesh and the rest of the
stream, `error` the mesh state at the moment
`adcircmodules_throw_exception` fires (the file handle close on each exit
path has no observable effect here). -/
abbrev ReadResult := Except Mesh (Mesh × List Line)

/-- `Mesh::readAdcircMeshHeader`: header string, then the element and node
counts (in that order) from the size line; either failed conversion
throws. -/
def Mesh.readAdcircMeshHeader (m : Mesh) (s : List Line) : ReadResult :=
  let (l1, s) := getline s
  let m := { m with m_meshHeaderString := headerOf l1 }
  let (l2, s) := getline s
  match parseSize l2 with
  | (none, _) => .error m
  | (some ne, r2) =>
      let m := { m with m_numElements := ne }
      match r2 with
      | none => .error m
      | some nn => .ok ({ m with m_numNodes := nn }, s)

/-- Loop body of `Mesh::readAdcircNodes`: fills position `i`, clearing the
node-ordering flag whenever `i != id - 1` (a `size_t` comparison, stated
as `i + 1 ≠ id` which agrees for every attainable `i`); after the loop,
the lookup table is built iff the ordering was found non-sequential. -/
def readAdcircNodesGo (m : Mesh) (i : Nat) : Nat → List Line → ReadResult
  | 0, s =>
      if m.m_nodeOrderingLogical then .ok (m, s)
      else
        .ok ({ m with
                m_nodeLookup :=
                  buildLookup m.m_nodeLookup (m.m_nodes.map Node.id) 0 }, s)
  | rem + 1, s =>
      let (l, s1) := getline s
      match parseNode l with
      | none => .error m
      | some (id, x, y, z) =>
          let m :=
            if i + 1 ≠ id then { m with m_nodeOrderingLogical := false } else m
          let m := { m with m_nodes := m.m_nodes.set i (Node.mk id x y z) }
          readAdcircNodesGo m (i + 1) rem s1

/-- `Mesh::readAdcircNodes`: resize to `numNodes`, then the record loop. -/
def Mesh.readAdcircNodes (m : Mesh) (s : List Line) : ReadResult :=
  readAdcircNodesGo
    { m with m_nodes := listResize m.m_nodes m.numNodes defaultNode } 0
    m.numNodes s

/-- Element loop body for the sequential-node-ordering branch of
`Mesh::readAdcircElements`: vertex ids are translated by `id - 1` and no
element-ordering comparison is made in this branch. -/
def readAdcircElementsSeqGo (m : Mesh) (i : Nat) : Nat → List Line → ReadResult
  | 0, s => .ok (m, s)
  | rem + 1, s =>
      let (l, s1) := getline s
      match parseElem l with
      | none => .error m
      | some (id, n) =>
          let e :=
            match n with
            | [a, b, c] => Element.mk id [a - 1, b - 1, c - 1]
            | [a, b, c, d] => Element.mk id [a - 1, b - 1, c - 1, d - 1]
            | _ => m.m_elements.getD i defaultElement
          readAdcircElementsSeqGo { m with m_elements := m.m_elements.set i e }
            (i + 1) rem s1

/-- Element loop body for the non-sequential branch of
`Mesh::readAdcircElements`: the element-ordering flag is cleared whenever
`i != id - 1`, and vertex ids resolve through `m_nodeLookup[...]`
(`operator[]`, which default-inserts absent node ids). -/
def readAdcircElementsLkpGo (m : Mesh) (i : Nat) : Nat → List Line → ReadResult
  | 0, s => .ok (m, s)
  | rem + 1, s =>
      let (l, s1) := getline s
      match parseElem l with
      | none => .error m
      | some (id, n) =>
          let m :=
            if i + 1 ≠ id then { m with m_elementOrderingLogical := false }
            else m
          let m :=
            match n with
            | [a, b, c] =>
                let (p1, lk1) := lookupGetInsert m.m_nodeLookup a
                let (p2, lk2) := lookupGetInsert lk1 b
                let (p3, lk3) := lookupGetInsert lk2 c
                { m with
                  m_nodeLookup := lk3
                  m_elements := m.m_elements.set i (Element.mk id [p1, p2, p3]) }
            | [a, b, c, d] =>
                let (p1, lk1) := lookupGetInsert m.m_nodeLookup a
                let (p2, lk2) := lookupGetInsert lk1 b
                let (p3, lk3) := lookupGetInsert lk2 c
                let (p4, lk4) := lookupGetInsert lk3 d
                { m with
                  m_nodeLookup := lk4
                  m_elements :=
                    m.m_elements.set i (Element.mk id [p1, p2, p3, p4]) }
            | _ => m
          readAdcircElementsLkpGo m (i + 1) rem s1

/-- `Mesh::readAdcircElements`: resize, the branch on the node-ordering
flag, and the element-lookup build iff the element ordering was found
non-sequential. -/
def Mesh.readAdcircElements (m : Mesh) (s : List Line) : ReadResult := do
  let m := { m with
             m_elements := listResize m.m_elements m.numElements defaultElement }
  let (m, s) ←
    if m.m_nodeOrderingLogical then readAdcircElementsSeqGo m 0 m.numElements s
    else readAdcircElementsLkpGo m 0 m.numElements s
  if m.m_elementOrderingLogical then pure (m, s)
  else
    pure ({ m with
            m_elementLookup :=
              buildLookup m.m_elementLookup (m.m_elements.map Element.id) 0 },
          s)

/-- Node-id to storage-position translation used while reading boundary
records: `nid - 1` under sequential node ordering, else
`m_nodeLookup[nid]` with its `operator[]` insertion side effect. -/
def resolveBoundaryNode (m : Mesh) (nid : Nat) : Nat × Mesh :=
  if m.m_nodeOrderingLogical then (nid - 1, m)
  else
    let (p, lk) := lookupGetInsert m.m_nodeLookup nid
    (p, { m with m_nodeLookup := lk })

/-- Per-node loop of one open boundary (`Mesh::readAdcircOpenBoundaries`,
inner loop): each record sets `node1[j]`; the partially filled boundary
already sits in the mesh's vector when a record fails. -/
def readOpenBndNodesGo (m : Mesh) (bi : Nat) (j : Nat) :
    Nat → List Line → ReadResult
  | 0, s => .ok (m, s)
  | rem + 1, s =>
      let (l, s1) := getline s
      match parseBnd0 l with
      | none => .error m
      | some nid =>
          let (p, m) := resolveBoundaryNode m nid
          let b := (m.m_openBoundaries.getD bi defaultBoundary).setNode1 j p
          readOpenBndNodesGo
            { m with m_openBoundaries := m.m_openBoundaries.set bi b } bi
            (j + 1) rem s1

/-- Per-boundary loop of `Mesh::readAdcircOpenBoundaries`: length line,
`setBoundary(-1, length)`, then the node records. -/
def readOpenBndsGo (m : Mesh) (bi : Nat) : Nat → List Line → ReadResult
  | 0, s => .ok (m, s)
  | rem + 1, s => do
      let (l, s1) := getline s
      match parseCount l with
      | none => .error m
      | some len =>
          let b := Boundary.setBoundary (-1) len
          let m := { m with m_openBoundaries := m.m_openBoundaries.set bi b }
          let (m, s2) ← readOpenBndNodesGo m bi 0 len s1
          readOpenBndsGo m (bi + 1) rem s2

/-- `Mesh::readAdcircOpenBoundaries`: the boundary count line, a discarded
line (the total-node-count line is read but never parsed), then the
boundaries. -/
def Mesh.readAdcircOpenBoundaries (m : Mesh) (s : List Line) : ReadResult :=
  let (l, s) := getline s
  match parseCount l with
  | none => .error m
  | some nb =>
      let m := { m with
                 m_numOpenBoundaries := nb
                 m_openBoundaries :=
                   listResize m.m_openBoundaries nb defaultBoundary }
      let (_, s) := getline s
      readOpenBndsGo m 0 nb s

/-- Per-node loop of one land boundary
(`Mesh::readAdcircLandBoundaries`, inner loop): the record grammar and the
attribute set stored depend on the boundary type code. -/
def readLandBndNodesGo (m : Mesh) (bi : Nat) (code : Int) (j : Nat) :
    Nat → List Line → ReadResult
  | 0, s => .ok (m, s)
  | rem + 1, s =>
      let (l, s1) := getline s
      if code = 3 ∨ code = 13 ∨ code = 23 then
        match parseBnd23 l with
        | none => .error m
        | some (n1, crest, supercritical) =>
            let (p, m) := resolveBoundaryNode m n1
            let b := (m.m_landBoundaries.getD bi defaultBoundary).setNode1 j p
            let b := b.setCrestElevation j crest
            let b := b.setSupercriticalWeirCoefficient j supercritical
            readLandBndNodesGo
              { m with m_landBoundaries := m.m_landBoundaries.set bi b } bi
              code (j + 1) rem s1
      else if code = 4 ∨ code = 24 then
        match parseBnd24 l with
        | none => .error m
        | some (n1, n2, crest, subcritical, supercritical) =>
            let (p1, m) := resolveBoundaryNode m n1
            let (p2, m) := resolveBoundaryNode m n2
            let b := (m.m_landBoundaries.getD bi defaultBoundary).setNode1 j p1
            let b := b.setNode2 j p2
            let b := b.setCrestElevation j crest
            let b := b.setSubcriticalWeirCoefficient j subcritical
            let b := b.setSupercriticalWeirCoefficient j supercritical
            readLandBndNodesGo
              { m with m_landBoundaries := m.m_landBoundaries.set bi b } bi
              code (j + 1) rem s1
      else if code = 5 ∨ code = 25 then
        match parseBnd25 l with
        | none => .error m
        | some ((n1, n2), (crest, subcritical, supercritical),
                (pipeheight, pipecoef, pipediam)) =>
            let (p1, m) := resolveBoundaryNode m n1
            let (p2, m) := resolveBoundaryNode m n2
            let b := (m.m_landBoundaries.getD bi defaultBoundary).setNode1 j p1
            let b := b.setNode2 j p2
            let b := b.setCrestElevation j crest
            let b := b.setSubcriticalWeirCoefficient j subcritical
            let b := b.setSupercriticalWeirCoefficient j supercritical
            let b := b.setPipeHeight j pipeheight
            let b := b.setPipeCoefficient j pipecoef
            let b := b.setPipeDiameter j pipediam
            readLandBndNodesGo
              { m with m_landBoundaries := m.m_landBoundaries.set bi b } bi
              code (j + 1) rem s1
      else
        match parseBnd0 l with
        | none => .error m
        | some n1 =>
            let (p, m) := resolveBoundaryNode m n1
            let b := (m.m_landBoundaries.getD bi defaultBoundary).setNode1 j p
            readLandBndNodesGo
              { m with m_landBoundaries := m.m_landBoundaries.set bi b } bi
              code (j + 1) rem s1

/-- Per-boundary loop of `Mesh::readAdcircLandBoundaries`: length and type
code, `setBoundary(code, length)`, then the node records. -/
def readLandBndsGo (m : Mesh) (bi : Nat) : Nat → List Line → ReadResult
  | 0, s => .ok (m, s)
  | rem + 1, s => do
      let (l, s1) := getline s
      match parseLandCount l with
      | (none, _) => .error m
      | (some len, rc) =>
          match rc with
          | none => .error m
          | some code =>
              let b := Boundary.setBoundary code len
              let m :=
                { m with m_landBoundaries := m.m_landBoundaries.set bi b }
              let (m, s2) ← readLandBndNodesGo m bi code 0 len s1
              readLandBndsGo m (bi + 1) rem s2

/-- `Mesh::readAdcircLandBoundaries`: the boundary count line, a discarded
line, then the boundaries. -/
def Mesh.readAdcircLandBoundaries (m : Mesh) (s : List Line) : ReadResult :=
  let (l, s) := getline s
  match parseCount l with
  | none => .error m
  | some nb =>
      let m := { m with
                 m_numLandBoundaries := nb
                 m_landBoundaries :=
                   listResize m.m_landBoundaries nb defaultBoundary }
      let (_, s) := getline s
      readLandBndsGo m 0 nb s

/-- `Mesh::readAdcircMesh`: the five sections in order.  On failure the
carried mesh is the state at the failing record. -/
def Mesh.readAdcircMesh (m : Mesh) (s : List Line) : Except Mesh Mesh := do
  let (m, s) ← m.readAdcircMeshHeader s
  let (m, s) ← m.readAdcircNodes s
  let (m, s) ← m.readAdcircElements s
  let (m, s) ← m.readAdcircOpenBoundaries s
  let (m, _) ← m.readAdcircLandBoundaries s
  pure m

/-- `Mesh::read` for the native-ASCII format: `_init()` wipes the previous
data, then the format reader runs.  (The filename/existence checks and the
extension-based choice among the three formats act before any parsing and
are not modelled; the 2dm and DFlow readers go through external
container/tokenizer code outside the analyzed sources.) -/
def Mesh.read (m : Mesh) (s : List Line) : Except Mesh Mesh :=
  Mesh.readAdcircMesh (Mesh.init m) s

/-- The mesh carried by a read outcome, successful or not. -/
def exceptMesh : Except Mesh Mesh → Mesh
  | .ok m => m
  | .error m => m

/-- Whether a read outcome is a success. -/
def isOkRead : Except Mesh Mesh → Bool
  | .ok _ => true
  | .error _ => false

/-! ### Link table, point location, writer -/

/-- The node a stored reference points to (`Node*` dereference). -/
def resolveVert (nodes : List Node) (p : Nat) : Node := nodes.getD p defaultNode

/-- Identifier of the node at a storage position. -/
def nodeIdAt (nodes : List Node) (p : Nat) : Nat := (resolveVert nodes p).id

/-- An exact unnormalized fraction: numerator and (by construction
positive) denominator.  The angle comparisons below are carried out on
such pairs so that every step evaluates by kernel reduction. -/
abbrev Frac := Int × Int

/-- A rational as an explicit fraction. -/
def toFrac (r : ℚ) : Frac := (r.num, (r.den : Int))

/-- Fraction addition (unnormalized). -/
def fadd (a b : Frac) : Frac := (a.1 * b.2 + b.1 * a.2, a.2 * b.2)

/-- Fraction subtraction (unnormalized). -/
def fsub (a b : Frac) : Frac := (a.1 * b.2 - b.1 * a.2, a.2 * b.2)

/-- Sum of a list of fractions. -/
def fsum (l : List Frac) : Frac := l.foldl fadd (0, 1)

/-- Division of a fraction by a (positive) natural count. -/
def fdivn (a : Frac) (n : Nat) : Frac := (a.1, a.2 * (n : Int))

/-- Class of a vector's `atan2(y, x)` value in the ascending order of
angles over `(-pi, pi]`: negative `y` first, then the positive `x` axis
(angle 0), then positive `y`, then the negative `x` axis (angle pi).
The sign of a fraction is the sign of its numerator. -/
def angClass (v : Frac × Frac) : Nat :=
  if v.2.1 < 0 then 0
  else if v.2.1 = 0 ∧ 0 ≤ v.1.1 then 1
  else if 0 < v.2.1 then 2
  else 3

/-- Numerator, after clearing the positive denominators, of the
two-dimensional cross product `v.1 * w.2 - v.2 * w.1`; its sign is the
sign of the cross product. -/
def crossNum (v w : Frac × Frac) : Int :=
  v.1.1 * w.2.1 * v.2.2 * w.1.2 - v.2.1 * w.1.1 * v.1.2 * w.2.2

/-- Exact comparison `atan2(v) ≤ atan2(w)`: by class, and within one open
half-plane by the sign of the cross product. -/
def angLe (v w : Frac × Frac) : Bool :=
  decide (angClass v < angClass w) ||
    (decide (angClass v = angClass w) && decide (0 ≤ crossNum v w))

/-- Insertion into a list sorted by `le`. -/
def insertSortedBy (le : α → α → Bool) (x : α) : List α → List α
  | [] => [x]
  | y :: r => if le x y then x :: y :: r else y :: insertSortedBy le x r

/-- Insertion sort by `le`. -/
def insertionSortBy (le : α → α → Bool) : List α → List α
  | [] => []
  | x :: r => insertSortedBy le x (insertionSortBy le r)

/-- Modelled from the spec: `Element::sortVerticiesAboutCenter`
(`element.cpp` is not among the analyzed sources).  Per spec section 4.2,
the centroid is the arithmetic mean of the vertex coordinates and the
vertices are ordered by the `atan2`-style angle each makes with the
centroid; the angle comparison is taken exactly, on the coordinates
viewed as explicit fractions. -/
def sortVerticiesAboutCenter (nodes : List Node) (e : Element) : Element :=
  let ptx := fun p => toFrac (resolveVert nodes p).x
  let pty := fun p => toFrac (resolveVert nodes p).y
  let cx := fdivn (fsum (e.verts.map ptx)) e.n
  let cy := fdivn (fsum (e.verts.map pty)) e.n
  { e with
    verts :=
      insertionSortBy
        (fun p q =>
          angLe (fsub (ptx p) cx, fsub (pty p) cy)
            (fsub (ptx q) cx, fsub (pty q) cy))
        e.verts }

/-- Modelled from the spec: `Element::elementLeg(j)` (`element.cpp` is not
among the analyzed sources): the ordered pair of vertices that are
consecutive around the polygon, wrapping at the end. -/
def Element.elementLeg (e : Element) (j : Nat) : Nat × Nat :=
  (e.verts.getD j 0, e.verts.getD ((j + 1) % e.n) 0)

/-- Canonicalization of one leg in `Mesh::generateLinkTable`: the two node
references are swapped when the first one's identifier exceeds the second
one's. -/
def canonicalLeg (nodes : List Node) (p : Nat × Nat) : Nat × Nat :=
  if nodeIdAt nodes p.1 > nodeIdAt nodes p.2 then (p.2, p.1) else p

/-- The canonicalized legs contributed by one element: the element is
copied, its copy's vertices sorted about the centroid, and each of its
`n` legs canonicalized. -/
def elementLegsC (nodes : List Node) (e : Element) : List (Nat × Nat) :=
  let es := sortVerticiesAboutCenter nodes e
  (List.range es.n).map (fun j => canonicalLeg nodes (es.elementLeg j))

/-- Strict lexicographic order on node-reference pairs: the iteration
order of `std::set<std::pair<Node*, Node*>>` (pointers into one vector
compare by storage position). -/
def pairLt (a b : Nat × Nat) : Bool :=
  decide (a.1 < b.1) || (decide (a.1 = b.1) && decide (a.2 < b.2))

/-- Insertion into the sorted duplicate-free list modelling the set. -/
def setInsertPair (x : Nat × Nat) : List (Nat × Nat) → List (Nat × Nat)
  | [] => [x]
  | y :: r =>
      if pairLt x y then x :: y :: r
      else if x = y then y :: r
      else y :: setInsertPair x r

/-- The set built from all legs, iterated in its sorted order
(`std::set` construction from the leg vector, then `assign` back). -/
def setOfPairs (l : List (Nat × Nat)) : List (Nat × Nat) :=
  l.foldl (fun s x => setInsertPair x s) []

/-- `Mesh::generateLinkTable()`: every element's canonicalized legs,
deduplicated through the set. -/
def Mesh.generateLinkTable (m : Mesh) : List (Nat × Nat) :=
  setOfPairs (m.m_elements.map (elementLegsC m.m_nodes)).flatten

/-- A query location. -/
abbrev Point := ℚ × ℚ

/-- The candidate loop of `Mesh::findElement`: each candidate element is
fetched through the bounds-checked `element(i)` and tested with
`Element::isInside` (abstracted, `element.cpp` not among the analyzed
sources); the first containing one is returned, and the fall-through
return of `(size_t)(-1)` is modelled by `none`. -/
def findElementGo (m : Mesh) (inside : Element → Point → Bool) (loc : Point) :
    List Nat → Except String (Option Nat)
  | [] => .ok none
  | i :: rest =>
      match m.element i with
      | some e =>
          if inside e loc then .ok (some i) else findElementGo m inside loc rest
      | none => .error "Mesh: Element index out of bounds"

/-- `Mesh::findElement(location)`: the element-centroid search tree is
asked for the `searchDepth = 20` nearest centroids (the kd-tree is outside
the analyzed sources and is abstracted as an oracle `findXNearest`
returning candidate positions in increasing distance order, per spec
section 4.3), and the candidates are tested in that order. -/
def Mesh.findElement (m : Mesh) (findXNearest : Point → Nat → List Nat)
    (inside : Element → Point → Bool) (loc : Point) :
    Except String (Option Nat) :=
  let searchDepth : Nat := 20
  findElementGo m inside loc (findXNearest loc searchDepth)

/-- Right-justified space-padded rendering of one `%11i` field. -/
def padLeft11 (s : String) : String :=
  String.mk (List.replicate (11 - s.length) ' ') ++ s

/-- Appending one line to the output file (`outputFile << x << "\n"`). -/
def emit (buf : List String) (l : String) : List String := buf ++ [l]

/-- `Mesh::writeAdcircMesh`: the emission sequence of the native-ASCII
writer.  Per-record serialization (`Node::toAdcircString`,
`Element::toAdcircString`, `Boundary::toStringList`; their sources are not
among the analyzed files) is abstracted as the parameters `nodeStr`
(which receives the geographic flag), `elemStr` and `bndStr`. -/
def Mesh.writeAdcircMesh (m : Mesh) (nodeStr : Bool → Node → String)
    (elemStr : Element → String) (bndStr : Boundary → List String) :
    List String :=
  let buf : List String := []
  let buf := emit buf m.meshHeaderString
  let buf := emit buf
    (padLeft11 (toString m.numElements) ++ " " ++ padLeft11 (toString m.numNodes))
  let buf := m.m_nodes.foldl (fun b n => emit b (nodeStr m.isLatLon n)) buf
  let buf := m.m_elements.foldl (fun b e => emit b (elemStr e)) buf
  let buf := emit buf (toString m.numOpenBoundaries)
  let buf := emit buf (toString m.totalOpenBoundaryNodes)
  let buf := m.m_openBoundaries.foldl (fun b bd => (bndStr bd).foldl emit b) buf
  let buf := emit buf (toString m.numLandBoundaries)
  let buf := emit buf (toString m.totalLandBoundaryNodes)
  let buf := m.m_landBoundaries.foldl (fun b bd => (bndStr bd).foldl emit b) buf
  buf

/-! ### Concrete inputs used by witnesses and counterexamples -/

/-- A native-ASCII file with two nodes in shuffled identifier order and no
elements or boundaries. -/
def linesShuffled : List Line :=
  [.text "shuffled", .size (some 0, some 2),
   .node (some (2, 0, 0, 0)), .node (some (1, 1, 0, 0)),
   .count (some 0), .text "", .count (some 0)]

/-- The mesh read from `linesShuffled`. -/
def meshShuffled : Mesh := exceptMesh (Mesh.read Mesh.empty linesShuffled)

/-- A fully sequential native-ASCII file: four nodes, two triangles. -/
def linesSeq : List Line :=
  [.text "seq", .size (some 2, some 4),
   .node (some (1, 0, 0, 0)), .node (some (2, 1, 0, 0)),
   .node (some (3, 0, 1, 0)), .node (some (4, 1, 1, 0)),
   .elem (some (1, [1, 2, 3])), .elem (some (2, [2, 4, 3])),
   .count (some 0), .text "", .count (some 0)]

/-- The mesh read from `linesSeq`. -/
def meshSeq : Mesh := exceptMesh (Mesh.read Mesh.empty linesSeq)

/-- Sequential nodes but the two element records carry identifiers 2 then
1 (shuffled element numbering under sequential node numbering). -/
def linesSeqNodesShufElems : List Line :=
  [.text "snse", .size (some 2, some 4),
   .node (some (1, 0, 0, 0)), .node (some (2, 1, 0, 0)),
   .node (some (3, 0, 1, 0)), .node (some (4, 1, 1, 0)),
   .elem (some (2, [1, 2, 3])), .elem (some (1, [2, 4, 3])),
   .count (some 0), .text "", .count (some 0)]

/-- The mesh read from `linesSeqNodesShufElems`. -/
def meshSeqNodesShufElems : Mesh :=
  exceptMesh (Mesh.read Mesh.empty linesSeqNodesShufElems)

/-- A file whose first element record is malformed, after three good node
records. -/
def linesBadElem : List Line :=
  [.text "bad", .size (some 2, some 3),
   .node (some (1, 0, 0, 0)), .node (some (2, 1, 0, 0)),
   .node (some (3, 0, 1, 0)), .elem none]

/-- The mesh state in which the failed read of `linesBadElem` leaves the
object. -/
def meshBadElem : Mesh := exceptMesh (Mesh.read Mesh.empty linesBadElem)

/-- A mesh expecting three nodes, about to read its node section. -/
def meshPreNodes : Mesh := { Mesh.empty with m_numNodes := 3 }

/-- Node records with shuffled identifiers 3, 7, 1. -/
def linesNodes371 : List Line :=
  [.node (some (3, 0, 0, 0)), .node (some (7, 1, 0, 0)),
   .node (some (1, 0, 1, 0))]

/-- The mesh after `readAdcircNodes` on `linesNodes371`. -/
def meshNodes371 : Mesh :=
  match meshPreNodes.readAdcircNodes linesNodes371 with
  | .ok (m, _) => m
  | .error m => m

/-- The stream left over by `readAdcircNodes` on `linesNodes371`. -/
def restNodes371 : List Line :=
  match meshPreNodes.readAdcircNodes linesNodes371 with
  | .ok (_, s) => s
  | .error _ => []

/-- Four nodes on the unit square. -/
def nodesSquare : List Node := [⟨1, 0, 0, 0⟩, ⟨2, 1, 0, 0⟩, ⟨3, 0, 1, 0⟩, ⟨4, 1, 1, 0⟩]

/-- Lower-left triangle of the square. -/
def triLow : Element := ⟨1, [0, 1, 2]⟩

/-- Upper-right triangle, sharing the diagonal leg with `triLow`. -/
def triHigh : Element := ⟨2, [1, 3, 2]⟩

/-- Two triangles sharing exactly one edge over four distinct nodes. -/
def meshTwoTri : Mesh :=
  { Mesh.empty with
    m_numNodes := 4, m_numElements := 2,
    m_nodes := nodesSquare, m_elements := [triLow, triHigh] }

/-- The same mesh with the elements stored in the opposite order. -/
def meshTwoTriRev : Mesh := { meshTwoTri with m_elements := [triHigh, triLow] }

/-! ### Shared lemmas -/

theorem foldl_add_length (l : List Boundary) (a : Nat) :
    l.foldl (fun acc b => acc + b.length) a = a + (l.map Boundary.length).sum := by
  induction l generalizing a with
  | nil => simp
  | cons b rest ih => simp [ih, Nat.add_assoc]

/-! ### C8 -/

/-- C8: `totalOpenBoundaryNodes()` is the sum of the lengths of the open
boundaries currently in the mesh, and `totalLandBoundaryNodes()` the sum
of the land-boundary lengths; both are functions of the current boundary
collections alone (in particular they ignore, and are stated for every
value of, the cached `m_total...` members). -/
theorem C8_total_boundary_nodes (m : Mesh) :
    m.totalOpenBoundaryNodes = (m.m_openBoundaries.map Boundary.length).sum ∧
    m.totalLandBoundaryNodes = (m.m_landBoundaries.map Boundary.length).sum := by
  constructor
  · simpa using foldl_add_length m.m_openBoundaries 0
  · simpa using foldl_add_length m.m_landBoundaries 0

/-! ### C10 -/

/-- C10: for a mesh whose stored counts agree with the storage sizes, the
positional accessors `node(index)` and `element(index)` yield the record
stored at `index` exactly when `index` is below the corresponding count,
and report an out-of-bounds error (no record) exactly when it is not. -/
theorem C10_positional_accessors (m : Mesh)
    (hn : m.numNodes = m.m_nodes.length)
    (he : m.numElements = m.m_elements.length) (index : Nat) :
    (index < m.numNodes → m.node index = m.m_nodes.get? index) ∧
    (m.numNodes ≤ index → m.node index = none) ∧
    (index < m.numElements → m.element index = m.m_elements.get? index) ∧
    (m.numElements ≤ index → m.element index = none) := by
  refine ⟨fun h => ?_, fun h => ?_, fun h => ?_, fun h => ?_⟩
  · rw [Mesh.node, if_pos h, List.getD_eq_getElem?_getD,
      List.getElem?_eq_getElem (hn ▸ h)]
    rw [List.get?_eq_getElem?, List.getElem?_eq_getElem (hn ▸ h)]
    rfl
  · rw [Mesh.node, if_neg (by omega)]
  · rw [Mesh.element, if_pos h, List.getD_eq_getElem?_getD,
      List.getElem?_eq_getElem (he ▸ h)]
    rw [List.get?_eq_getElem?, List.getElem?_eq_getElem (he ▸ h)]
    rfl
  · rw [Mesh.element, if_neg (by omega)]

/-- Witness for C10 at the two-triangle mesh: position 1 is returned,
position 4 (nodes) and position 2 (elements) are out-of-bounds errors. -/
theorem C10_witness :
    meshTwoTri.node 1 = meshTwoTri.m_nodes.get? 1 ∧
    meshTwoTri.node 7 = none ∧
    meshTwoTri.element 1 = meshTwoTri.m_elements.get? 1 ∧
    meshTwoTri.element 2 = none :=
  ⟨(C10_positional_accessors meshTwoTri (by decide) (by decide) 1).1 (by decide),
   (C10_positional_accessors meshTwoTri (by decide) (by decide) 7).2.1 (by decide),
   (C10_positional_accessors meshTwoTri (by decide) (by decide) 1).2.2.1 (by decide),
   (C10_positional_accessors meshTwoTri (by decide) (by decide) 2).2.2.2 (by decide)⟩

/-! ### C2 -/

/-- C2: on a mesh read from fully sequential input (both ordering flags
true), `nodeIndexById(1)` is 0 = id − 1 as the claim states, but
`elementIndexById(1)` returns 1, not 0, even though the record carrying
identifier 1 sits at storage position 0: the sequential branch of
`elementIndexById` returns `id` instead of `id - 1`. -/
theorem C2_divergence :
    isOkRead (Mesh.read Mesh.empty linesSeq) = true ∧
    meshSeq.m_nodeOrderingLogical = true ∧
    meshSeq.m_elementOrderingLogical = true ∧
    meshSeq.m_elements.map Element.id = [1, 2] ∧
    meshSeq.nodeIndexById 1 = 0 ∧
    meshSeq.elementIndexById 1 = 1 := by decide

/-! ### C3 -/

/-- C3: after a native-ASCII read with sequential node identifiers but the
element identifiers 2, 1 (position 0 does not hold identifier 1), the
element ordering flag nevertheless remains true: the per-record comparison
for elements runs only inside the non-sequential-node branch of
`readAdcircElements`, so the element flag is not decided independently of
the node ordering as the claim states. -/
theorem C3_divergence :
    isOkRead (Mesh.read Mesh.empty linesSeqNodesShufElems) = true ∧
    meshSeqNodesShufElems.m_nodeOrderingLogical = true ∧
    meshSeqNodesShufElems.m_elements.map Element.id = [2, 1] ∧
    meshSeqNodesShufElems.m_elementOrderingLogical = true := by decide

/-! ### C4 -/

/-- C4 counterexample: a read that fails at a malformed element record
(after the node section parsed) does not leave the mesh in the
freshly-cleared empty state: the node count is 3, the three parsed nodes
are retained, and the element storage is resized to 2. -/
theorem C4_counterexample :
    isOkRead (Mesh.read Mesh.empty linesBadElem) = false ∧
    meshBadElem.m_numNodes = 3 ∧
    meshBadElem.m_nodes.map Node.id = [1, 2, 3] ∧
    meshBadElem.m_numElements = 2 ∧
    meshBadElem.m_elements.length = 2 := by decide

/-- C4 (amended): every `read()` starts by resetting the mesh to the
freshly-cleared state — zero nodes, elements, open and land boundaries —
so a read never retains the previous mesh's records, whether it succeeds
or fails; but a failure after parsing has begun leaves the partial state
of the current parse, not the empty state. -/
theorem C4_read_clears_before_parsing (m : Mesh) (s : List Line) :
    Mesh.read m s = Mesh.read (Mesh.init m) s ∧
    (Mesh.init m).m_numNodes = 0 ∧ (Mesh.init m).m_numElements = 0 ∧
    (Mesh.init m).m_numOpenBoundaries = 0 ∧
    (Mesh.init m).m_numLandBoundaries = 0 ∧
    (Mesh.init m).m_nodes = [] ∧ (Mesh.init m).m_elements = [] ∧
    (Mesh.init m).m_openBoundaries = [] ∧ (Mesh.init m).m_landBoundaries = [] :=
  ⟨rfl, rfl, rfl, rfl, rfl, rfl, rfl, rfl, rfl⟩

/-! ### C1 -/

/-- C1 counterexample: on the mesh read from shuffled node identifiers
(the lookup-table case) the identifier 5 is present in no node record, yet
`nodeById(5)` does not raise the not-found error: the `operator[]` read of
the absent key yields the default position 0 and the node stored there
(identifier 2) is silently returned. -/
theorem C1_counterexample :
    isOkRead (Mesh.read Mesh.empty linesShuffled) = true ∧
    meshShuffled.m_nodeOrderingLogical = false ∧
    (∀ nd ∈ meshShuffled.m_nodes, nd.id ≠ 5) ∧
    meshShuffled.nodeById 5 ≠ .notFound ∧
    meshShuffled.nodeById 5 = .found ⟨2, 0, 0, 0⟩ := by decide

/-- C1 (amended): in the sequential-ordering case `nodeById` and
`elementById` do raise the not-found error for every identifier outside
`[1, count]`; in the lookup-table case they never raise it — an
identifier absent from the lookup table resolves through the map's
default-inserted position 0, and the record stored at position 0 is
silently returned. -/
theorem C1_lookup_error_behavior (m : Mesh) (id : Nat) :
    (m.m_nodeOrderingLogical = true → ¬(0 < id ∧ id ≤ m.numNodes) →
      m.nodeById id = .notFound) ∧
    (m.m_elementOrderingLogical = true → ¬(0 < id ∧ id ≤ m.numElements) →
      m.elementById id = .notFound) ∧
    (m.m_nodeOrderingLogical = false → m.nodeById id ≠ .notFound) ∧
    (m.m_elementOrderingLogical = false → m.elementById id ≠ .notFound) ∧
    (m.m_nodeOrderingLogical = false → lookupFind m.m_nodeLookup id = none →
      ∀ nd, m.m_nodes.get? 0 = some nd → m.nodeById id = .found nd) ∧
    (m.m_elementOrderingLogical = false →
      lookupFind m.m_elementLookup id = none →
      ∀ e, m.m_elements.get? 0 = some e → m.elementById id = .found e) := by
  refine ⟨fun hf h => ?_, fun hf h => ?_, fun hf => ?_, fun hf => ?_,
    fun hf habs nd hnd => ?_, fun hf habs e he => ?_⟩
  · rw [Mesh.nodeById, if_pos hf, if_neg h]
  · rw [Mesh.elementById, if_pos hf, if_neg h]
  · rw [Mesh.nodeById, if_neg (by simp [hf])]
    cases m.m_nodes.get? (lookupGet m.m_nodeLookup id) <;> simp
  · rw [Mesh.elementById, if_neg (by simp [hf])]
    cases m.m_elements.get? (lookupGet m.m_elementLookup id) <;> simp
  · rw [Mesh.nodeById, if_neg (by simp [hf]), lookupGet, habs]
    simpa using congrArg (fun o => match o with
      | some n => Fetched.found n
      | none => Fetched.outOfStorage) hnd
  · rw [Mesh.elementById, if_neg (by simp [hf]), lookupGet, habs]
    simpa using congrArg (fun o => match o with
      | some e => Fetched.found e
      | none => Fetched.outOfStorage) he

/-- Witness for the amended C1 at read meshes: the sequential mesh raises
not-found for the absent identifiers 9 (nodes) and 7 (elements); the
shuffled mesh silently yields the position-0 node for the absent
identifier 5. -/
theorem C1_witness :
    meshSeq.nodeById 9 = .notFound ∧
    meshSeq.elementById 7 = .notFound ∧
    meshShuffled.nodeById 5 = .found ⟨2, 0, 0, 0⟩ :=
  ⟨(C1_lookup_error_behavior meshSeq 9).1 (by decide) (by decide),
   (C1_lookup_error_behavior meshSeq 7).2.1 (by decide) (by decide),
   (C1_lookup_error_behavior meshShuffled 5).2.2.2.2.1 (by decide) (by decide)
     ⟨2, 0, 0, 0⟩ (by decide)⟩

/-! ### C9 -/

theorem foldl_emit_map (f : α → String) (l : List α) (buf : List String) :
    l.foldl (fun b x => emit b (f x)) buf = buf ++ l.map f := by
  induction l generalizing buf with
  | nil => simp
  | cons x r ih =>
      rw [List.foldl_cons, ih]
      simp [emit]

theorem foldl_emit_id (ls : List String) (buf : List String) :
    ls.foldl emit buf = buf ++ ls := by
  induction ls generalizing buf with
  | nil => simp
  | cons x r ih =>
      rw [List.foldl_cons, ih]
      simp [emit]

theorem foldl_emit_flatten (g : α → List String) (l : List α)
    (buf : List String) :
    l.foldl (fun b x => (g x).foldl emit b) buf = buf ++ (l.map g).flatten := by
  induction l generalizing buf with
  | nil => simp
  | cons x r ih =>
      rw [List.foldl_cons, foldl_emit_id, ih]
      simp

/-- C9: the native-ASCII writer emits, in order: the header string; one
line of two 11-wide right-justified integer fields holding the element
count then the node count; one line per node (serialized under the
geographic/projected flag); one line per element; the open-boundary block
(count line, total-open-boundary-node count line, then each boundary's
records); and the analogous land-boundary block. -/
theorem C9_writer_layout (nodeStr : Bool → Node → String)
    (elemStr : Element → String) (bndStr : Boundary → List String) (m : Mesh) :
    m.writeAdcircMesh nodeStr elemStr bndStr =
      [m.meshHeaderString,
       padLeft11 (toString m.numElements) ++ " " ++
         padLeft11 (toString m.numNodes)]
      ++ m.m_nodes.map (nodeStr m.isLatLon)
      ++ m.m_elements.map elemStr
      ++ [toString m.numOpenBoundaries, toString m.totalOpenBoundaryNodes]
      ++ (m.m_openBoundaries.map bndStr).flatten
      ++ [toString m.numLandBoundaries, toString m.totalLandBoundaryNodes]
      ++ (m.m_landBoundaries.map bndStr).flatten := by
  simp only [Mesh.writeAdcircMesh]
  rw [foldl_emit_map, foldl_emit_map, foldl_emit_flatten, foldl_emit_flatten]
  simp [emit]

/-! ### C7 -/

theorem findElementGo_spec (m : Mesh) (inside : Element → Point → Bool)
    (loc : Point) (cand : List Nat) (h : ∀ i ∈ cand, i < m.numElements) :
    findElementGo m inside loc cand =
      .ok (cand.find?
        (fun i => inside (m.m_elements.getD i defaultElement) loc)) := by
  induction cand with
  | nil => simp [findElementGo]
  | cons i r ih =>
      have hi : i < m.numElements := h i (by simp)
      rw [findElementGo, Mesh.element, if_pos hi]
      simp only [List.getD] at ih ⊢
      by_cases hin : inside (m.m_elements[i]?.getD defaultElement) loc = true
      · simp [hin, List.find?_cons]
      · simp only [Bool.not_eq_true] at hin
        simp [hin, List.find?_cons, ih (fun j hj => h j (by simp [hj]))]

/-- C7: `findElement(location)` asks the element-centroid index for the
fixed candidate depth of 20 nearest centroids and tests them in the
returned (increasing-distance) order: the result is exactly the first
candidate whose element contains the point, and it is the not-found
outcome precisely when none of those candidates contains the point. -/
theorem C7_findElement (m : Mesh) (findXNearest : Point → Nat → List Nat)
    (inside : Element → Point → Bool) (loc : Point)
    (h : ∀ i ∈ findXNearest loc 20, i < m.numElements) :
    m.findElement findXNearest inside loc =
      .ok ((findXNearest loc 20).find?
        (fun i => inside (m.m_elements.getD i defaultElement) loc)) ∧
    (m.findElement findXNearest inside loc = .ok none ↔
      ∀ i ∈ findXNearest loc 20,
        inside (m.m_elements.getD i defaultElement) loc = false) := by
  have h1 : m.findElement findXNearest inside loc =
      .ok ((findXNearest loc 20).find?
        (fun i => inside (m.m_elements.getD i defaultElement) loc)) :=
    findElementGo_spec m inside loc (findXNearest loc 20) h
  refine ⟨h1, ?_⟩
  rw [h1]
  simp [List.find?_eq_none]

/-- Candidate oracle returning the two element positions of the
two-triangle mesh (nearest first). -/
def nkTwoTri : Point → Nat → List Nat := fun _ _ => [0, 1]

/-- A containment test holding exactly on the element with identifier 2. -/
def insideById2 : Element → Point → Bool := fun e _ => e.id == 2

/-- Witness for C7: on the two-triangle mesh with the concrete oracle,
the first (and only) containing candidate, position 1, is returned. -/
theorem C7_witness :
    meshTwoTri.findElement nkTwoTri insideById2 (0, 0) = .ok (some 1) := by
  have h :=
    (C7_findElement meshTwoTri nkTwoTri insideById2 (0, 0) (by decide)).1
  rw [h]
  rfl

/-! ### C5 -/

theorem lookupFind_lookupInsert (m : Lookup) (k v k2 : Nat) :
    lookupFind (lookupInsert m k v) k2 =
      if k = k2 then some v else lookupFind m k2 := by
  induction m with
  | nil => simp [lookupInsert, lookupFind]
  | cons p rest ih =>
      obtain ⟨k1, v1⟩ := p
      by_cases h : k1 = k
      · subst h
        simp only [lookupInsert, if_pos rfl, lookupFind]
        by_cases h2 : k1 = k2 <;> simp [h2]
      · simp only [lookupInsert, if_neg h, lookupFind, ih]
        by_cases h2 : k1 = k2
        · subst h2
          have hne : ¬ k = k1 := fun hh => h hh.symm
          simp [hne]
        · simp [h2]

theorem buildLookup_find_not_mem (ids : List Nat) (base : Lookup) (st id : Nat)
    (h : id ∉ ids) :
    lookupFind (buildLookup base ids st) id = lookupFind base id := by
  induction ids generalizing base st with
  | nil => rfl
  | cons x rest ih =>
      simp only [List.mem_cons, not_or] at h
      rw [buildLookup, ih _ _ h.2, lookupFind_lookupInsert,
        if_neg (fun hx => h.1 hx.symm)]

theorem buildLookup_find_mem (ids : List Nat) (base : Lookup) (st id : Nat)
    (h : id ∈ ids) :
    ∃ j, j < ids.length ∧ ids.get? j = some id ∧
      lookupFind (buildLookup base ids st) id = some (st + j) := by
  induction ids generalizing base st with
  | nil => cases h
  | cons x rest ih =>
      by_cases hr : id ∈ rest
      · obtain ⟨j, hj, hg, hf⟩ := ih (lookupInsert base x st) (st + 1) hr
        refine ⟨j + 1, by simpa using hj, by simpa using hg, ?_⟩
        rw [buildLookup, hf]
        congr 1
        omega
      · have hx : id = x := by
          rcases List.mem_cons.mp h with h1 | h1
          · exact h1
          · exact absurd h1 hr
        refine ⟨0, by simp, by simp [hx], ?_⟩
        rw [buildLookup, buildLookup_find_not_mem _ _ _ _ hr,
          lookupFind_lookupInsert, if_pos hx.symm, Nat.add_zero]

theorem readAdcircNodesGo_ok (rem : Nat) :
    ∀ (m : Mesh) (i : Nat) (s : List Line) (m' : Mesh) (s' : List Line),
      readAdcircNodesGo m i rem s = .ok (m', s') →
      (m'.m_nodeOrderingLogical = true ∧ m'.m_nodeLookup = m.m_nodeLookup) ∨
      (m'.m_nodeOrderingLogical = false ∧
        m'.m_nodeLookup =
          buildLookup m.m_nodeLookup (m'.m_nodes.map Node.id) 0) := by
  induction rem with
  | zero =>
      intro m i s m' s' h
      rw [readAdcircNodesGo] at h
      by_cases hf : m.m_nodeOrderingLogical = true
      · rw [if_pos hf] at h
        simp only [Except.ok.injEq, Prod.mk.injEq] at h
        obtain ⟨hm, _⟩ := h
        subst hm
        exact Or.inl ⟨hf, rfl⟩
      · rw [if_neg hf] at h
        simp only [Except.ok.injEq, Prod.mk.injEq] at h
        obtain ⟨hm, _⟩ := h
        subst hm
        exact Or.inr ⟨by simpa using hf, rfl⟩
  | succ rem ih =>
      intro m i s m' s' h
      rw [readAdcircNodesGo] at h
      simp only [getline] at h
      cases hp : parseNode s.head? with
      | none => simp [hp] at h
      | some t =>
          obtain ⟨id, x, y, z⟩ := t
          simp only [hp] at h
          rcases ih _ _ _ _ _ h with ⟨hfl, hlk⟩ | ⟨hfl, hlk⟩
          · refine Or.inl ⟨hfl, ?_⟩
            rw [hlk]
            split <;> rfl
          · refine Or.inr ⟨hfl, ?_⟩
            rw [hlk]
            congr 1
            split <;> rfl

/-- C5: after the node section of a native-ASCII read completes with the
ordering found non-sequential (the shuffled case, where the lookup table
is built), `nodeById(id)` returns a node whose stored identifier equals
`id`, for every identifier `id` actually present among the read nodes. -/
theorem C5_shuffled_nodeById (m : Mesh) (s : List Line) (m' : Mesh)
    (s' : List Line) (id : Nat)
    (hok : m.readAdcircNodes s = .ok (m', s'))
    (hflag : m'.m_nodeOrderingLogical = false)
    (hid : id ∈ m'.m_nodes.map Node.id) :
    ∃ nd, m'.nodeById id = .found nd ∧ nd.id = id := by
  rw [Mesh.readAdcircNodes] at hok
  rcases readAdcircNodesGo_ok _ _ _ _ _ _ hok with ⟨h1, _⟩ | ⟨_, hlk⟩
  · rw [hflag] at h1
    cases h1
  · obtain ⟨j, hj, hg, hf⟩ :=
      buildLookup_find_mem (m'.m_nodes.map Node.id) m.m_nodeLookup 0 id hid
    rw [List.get?_map] at hg
    obtain ⟨nd, hnd, hndid⟩ := Option.map_eq_some'.mp hg
    refine ⟨nd, ?_, hndid⟩
    rw [Mesh.nodeById, if_neg (by simp [hflag]), lookupGet, hlk, hf]
    simpa using congrArg (fun o => match o with
      | some n => Fetched.found n
      | none => Fetched.outOfStorage) hnd

/-- Witness for C5 at the shuffled three-node input with identifiers
3, 7, 1: looking up identifier 7 yields a node whose identifier is 7. -/
theorem C5_witness :
    ∃ nd, meshNodes371.nodeById 7 = .found nd ∧ nd.id = 7 :=
  C5_shuffled_nodeById meshPreNodes linesNodes371 meshNodes371 restNodes371 7
    rfl (by decide) (by decide)

/-! ### C6 -/

theorem pairLt_trans {a b c : Nat × Nat} (h1 : pairLt a b = true)
    (h2 : pairLt b c = true) : pairLt a c = true := by
  obtain ⟨a1, a2⟩ := a
  obtain ⟨b1, b2⟩ := b
  obtain ⟨c1, c2⟩ := c
  simp only [pairLt, Bool.or_eq_true, Bool.and_eq_true, decide_eq_true_eq]
    at h1 h2 ⊢
  omega

theorem pairLt_total {x y : Nat × Nat} (h1 : ¬ pairLt x y = true) (h2 : x ≠ y) :
    pairLt y x = true := by
  obtain ⟨x1, x2⟩ := x
  obtain ⟨y1, y2⟩ := y
  simp only [pairLt, Bool.or_eq_true, Bool.and_eq_true, decide_eq_true_eq]
    at h1 ⊢
  simp only [ne_eq, Prod.mk.injEq, not_and] at h2
  rcases Nat.lt_trichotomy x1 y1 with hc | hc | hc
  · exact absurd (Or.inl hc) h1
  · subst hc
    rcases Nat.lt_trichotomy x2 y2 with hd | hd | hd
    · exact absurd (Or.inr ⟨rfl, hd⟩) h1
    · exact absurd hd (h2 rfl)
    · exact Or.inr ⟨rfl, hd⟩
  · exact Or.inl hc

theorem pairLt_irrefl (a : Nat × Nat) : pairLt a a = false := by
  obtain ⟨a1, a2⟩ := a
  simp [pairLt]

theorem mem_setInsertPair (x a : Nat × Nat) (l : List (Nat × Nat))
    (h : x ∈ setInsertPair a l) : x = a ∨ x ∈ l := by
  induction l with
  | nil => simpa [setInsertPair] using h
  | cons y r ih =>
      rw [setInsertPair] at h
      split_ifs at h with h1 h2
      · rcases List.mem_cons.mp h with h3 | h3
        · exact Or.inl h3
        · exact Or.inr h3
      · exact Or.inr h
      · rcases List.mem_cons.mp h with h3 | h3
        · exact Or.inr (h3 ▸ List.mem_cons_self _ _)
        · rcases ih h3 with h4 | h4
          · exact Or.inl h4
          · exact Or.inr (List.mem_cons_of_mem _ h4)

theorem pairwise_setInsertPair (x : Nat × Nat) (l : List (Nat × Nat))
    (h : l.Pairwise (fun a b => pairLt a b = true)) :
    (setInsertPair x l).Pairwise (fun a b => pairLt a b = true) := by
  induction l with
  | nil => simp [setInsertPair]
  | cons y r ih =>
      rw [setInsertPair]
      obtain ⟨hy, hr⟩ := List.pairwise_cons.mp h
      split_ifs with h1 h2
      · refine List.pairwise_cons.mpr ⟨?_, h⟩
        intro z hz
        rcases List.mem_cons.mp hz with hz1 | hz2
        · exact hz1 ▸ h1
        · exact pairLt_trans h1 (hy z hz2)
      · exact h
      · refine List.pairwise_cons.mpr ⟨?_, ih hr⟩
        intro z hz
        rcases mem_setInsertPair z x r hz with hz1 | hz2
        · exact hz1 ▸ pairLt_total h1 h2
        · exact hy z hz2

theorem pairwise_foldl_setInsertPair (l acc : List (Nat × Nat))
    (h : acc.Pairwise (fun a b => pairLt a b = true)) :
    (l.foldl (fun s x => setInsertPair x s) acc).Pairwise
      (fun a b => pairLt a b = true) := by
  induction l generalizing acc with
  | nil => exact h
  | cons x r ih => exact ih _ (pairwise_setInsertPair x acc h)

theorem nodup_setOfPairs (l : List (Nat × Nat)) : (setOfPairs l).Nodup := by
  refine List.Pairwise.imp ?_ (pairwise_foldl_setInsertPair l [] (by simp))
  intro a b hab heq
  rw [heq, pairLt_irrefl] at hab
  cases hab

theorem mem_foldl_setInsertPair (x : Nat × Nat) (l acc : List (Nat × Nat))
    (h : x ∈ l.foldl (fun s y => setInsertPair y s) acc) :
    x ∈ acc ∨ x ∈ l := by
  induction l generalizing acc with
  | nil => exact Or.inl h
  | cons y r ih =>
      rcases ih (setInsertPair y acc) h with h1 | h1
      · rcases mem_setInsertPair x y acc h1 with h2 | h2
        · exact Or.inr (h2 ▸ List.mem_cons_self _ _)
        · exact Or.inl h2
      · exact Or.inr (List.mem_cons_of_mem _ h1)

theorem mem_setOfPairs (x : Nat × Nat) (l : List (Nat × Nat))
    (h : x ∈ setOfPairs l) : x ∈ l := by
  rcases mem_foldl_setInsertPair x l [] h with h1 | h1
  · cases h1
  · exact h1

theorem generateLinkTable_ascending (m : Mesh) (p : Nat × Nat)
    (h : p ∈ m.generateLinkTable) :
    nodeIdAt m.m_nodes p.1 ≤ nodeIdAt m.m_nodes p.2 := by
  rw [Mesh.generateLinkTable] at h
  have h1 := mem_setOfPairs _ _ h
  rw [List.mem_flatten] at h1
  obtain ⟨ls, hls, hp⟩ := h1
  rw [List.mem_map] at hls
  obtain ⟨e, _, rfl⟩ := hls
  simp only [elementLegsC, List.mem_map] at hp
  obtain ⟨j, _, rfl⟩ := hp
  rw [canonicalLeg]
  split
  · next hgt => exact Nat.le_of_lt hgt
  · next hng => exact Nat.le_of_not_lt hng

/-- C6: `generateLinkTable()` returns the deduplicated undirected edge
set: every returned pair carries its two node identifiers in ascending
order, no pair occurs twice, and for the mesh of two triangles sharing
exactly one edge over four distinct nodes the table holds exactly five
edges and is the same whichever element is processed first. -/
theorem C6_link_table :
    (∀ (m : Mesh) (p : Nat × Nat), p ∈ m.generateLinkTable →
        nodeIdAt m.m_nodes p.1 ≤ nodeIdAt m.m_nodes p.2) ∧
    (∀ m : Mesh, m.generateLinkTable.Nodup) ∧
    meshTwoTri.generateLinkTable.length = 5 ∧
    meshTwoTriRev.generateLinkTable = meshTwoTri.generateLinkTable := by
  refine ⟨generateLinkTable_ascending, fun m => ?_, by decide, by decide⟩
  rw [Mesh.generateLinkTable]
  exact nodup_setOfPairs _

/-- Witness for C6: the diagonal edge of the two-triangle mesh (positions
1, 2, identifiers 2 and 3) is stored ascending. -/
theorem C6_witness :
    nodeIdAt meshTwoTri.m_nodes 1 ≤ nodeIdAt meshTwoTri.m_nodes 2 :=
  C6_link_table.1 meshTwoTri (1, 2) (by decide)

end QADC
